import Mathlib

/-!
Shallow embedding of `function_app.py` from the smart_pdf_analyzer repository.

Modelling conventions:
* A parsed PDF document (the view that `pypdf.PdfReader` offers over the
  downloaded bytes) is a `PdfDocument`: the ordered page texts as returned by
  `page.extract_text()` (which may be `None`, hence `Option String`), and the
  seven document-information fields (`None` when absent, covering both a
  missing field and a missing metadata dictionary).
* Blob storage is a finite association list from `(container, blob_name)` to
  parsed documents; `_download_pdf_bytes` raises when the blob is absent,
  which the embedding renders as `Except.error PdfError.downloadError`
  propagating out of the activity.
* Python string options: `payload.get(k)` is an `Option String`
  (`none` for a missing or null key); `x or d` on such a value is
  `orDefault`; `if not x` tests `optStrTruthy`.
* Python floats are modelled exactly as rationals (`Rat`); the two float
  expressions in `analyze_statistics` are plain divisions.
* The four `re.findall` matchers of `detect_sensitive_data` are the `re`
  library boundary and are passed in as a `Matchers` record of functions
  from the full text to the raw (unsorted, duplicated) match lists.
* Table storage is a list of entities in enumeration order; `upsert(merge)`
  coincides with replacement here because every write carries all four
  attributes.  The `report` attribute holds the Report value itself:
  `json.dumps`/the HTTP body round-trip is the identity at this boundary.
* The orchestrator is modelled as a function from the activity environment
  to an `OrchTrace` (which activities were dispatched, whether the report
  activities ran, the stored report) plus the resulting table state.
-/

/-- Python truthiness of an optional string: `None` and the empty string are
falsy (`if not blob_name`). -/
def optStrTruthy : Option String → Bool
  | none => false
  | some s => !(s == "")

/-- Python `v or d` for an optional string `v`: the default replaces both
`None` and the empty string. -/
def orDefault (v : Option String) (d : String) : String :=
  match v with
  | none => d
  | some s => if s = "" then d else s

/-- A parsed PDF document as seen through `pypdf.PdfReader`: ordered page
texts (`page.extract_text()`, possibly `None`) and the document-information
fields (`None` when absent). -/
structure PdfDocument where
  pages : List (Option String)
  title : Option String
  author : Option String
  subject : Option String
  creator : Option String
  producer : Option String
  creation_date : Option String
  mod_date : Option String
deriving DecidableEq, Repr

/-- Blob storage: association list from `(container, blob_name)` to the
parsed document stored there. -/
def Storage := List ((String × String) × PdfDocument)

/-- The `_download_pdf_bytes` + `PdfReader` pipeline: `none` when the blob is
absent, in which case the Azure SDK raises inside the activity. -/
def downloadPdf (storage : Storage) (container blobName : String) : Option PdfDocument :=
  (List.find? (fun e => e.1.1 == container && e.1.2 == blobName) storage).map (fun e => e.2)

/-- Failures an activity can raise. -/
inductive PdfError where
  | downloadError
  | valueError (msg : String)
deriving DecidableEq, Repr

/-- Activity input payload `{container, blob_name}`; `none` models a missing
or null key. -/
structure ActivityPayload where
  container : Option String
  blob_name : Option String
deriving DecidableEq, Repr

/-- One entry of `ExtractionResult.pages`. -/
structure PageText where
  page : Nat
  text : String
deriving DecidableEq, Repr

/-- Result of the `extract_text` activity. -/
structure ExtractionResult where
  pages : List PageText
  full_text : String
deriving DecidableEq, Repr

/-- Result of the `analyze_statistics` activity; the two float fields are
modelled exactly as rationals. -/
structure StatisticsResult where
  page_count : Nat
  word_count : Nat
  avg_words_per_page : Rat
  estimated_reading_time_minutes : Rat
deriving DecidableEq, Repr

/-- Result of the `detect_sensitive_data` activity. -/
structure SensitiveDataResult where
  emails : List String
  phones : List String
  urls : List String
  dates : List String
deriving DecidableEq, Repr

/-- The four `re.findall` pattern matchers of `detect_sensitive_data`,
passed as the `re` library boundary: each maps the joined full text to the
raw match list (unsorted, possibly with duplicates). -/
structure Matchers where
  emails : String → List String
  phones : String → List String
  urls : String → List String
  dates : String → List String

/-- Python `"\n".join(parts)`. -/
def joinNewline : List String → String
  | [] => ""
  | [s] => s
  | s :: rest => s ++ "\n" ++ joinNewline rest

/-- The page/full-text accumulation loop of `extract_text`: 1-based
enumeration of pages, collecting every page entry but only non-empty texts
into the join list. -/
def extractPages : Nat → List (Option String) → List PageText × List String
  | _, [] => ([], [])
  | i, t :: rest =>
    let text := t.getD ""
    let (ps, parts) := extractPages (i + 1) rest
    (⟨i, text⟩ :: ps, if text = "" then parts else text :: parts)

/-- Activity `extract_text` (function_app.py lines 152-171). -/
def extract_text (storage : Storage) (payload : ActivityPayload) :
    Except PdfError ExtractionResult :=
  let container := orDefault payload.container "pdfs"
  if optStrTruthy payload.blob_name then
    match downloadPdf storage container (payload.blob_name.getD "") with
    | none => .error .downloadError
    | some pdf =>
      .ok ⟨(extractPages 1 pdf.pages).1, joinNewline (extractPages 1 pdf.pages).2⟩
  else
    .ok ⟨[], ""⟩

/-- Activity `extract_metadata` (function_app.py lines 177-196): returns the
empty dict for a falsy `blob_name`, otherwise the seven-field mapping with
`_safe_str` applied to each raw metadata value. -/
def extract_metadata (storage : Storage) (payload : ActivityPayload) :
    Except PdfError (List (String × String)) :=
  let container := orDefault payload.container "pdfs"
  if optStrTruthy payload.blob_name then
    match downloadPdf storage container (payload.blob_name.getD "") with
    | none => .error .downloadError
    | some pdf =>
      .ok [("title", pdf.title.getD ""), ("author", pdf.author.getD ""),
           ("subject", pdf.subject.getD ""), ("creator", pdf.creator.getD ""),
           ("producer", pdf.producer.getD ""), ("creation_date", pdf.creation_date.getD ""),
           ("mod_date", pdf.mod_date.getD "")]
  else
    .ok []

/-- Word characters of the regex `\w` (ASCII fragment): alphanumeric or
underscore. -/
def isWordChar (c : Char) : Bool := c.isAlphanum || c == '_'

/-- Number of maximal runs of word characters in a character list, given
whether the previous character was a word character; this is what
`len(re.findall(r"\b\w+\b", s))` computes. -/
def countRuns : List Char → Bool → Nat
  | [], _ => 0
  | c :: rest, inWord =>
    (if isWordChar c && !inWord then 1 else 0) + countRuns rest (isWordChar c)

/-- Number of regex word tokens in a string. -/
def countWords (s : String) : Nat := countRuns s.data false

/-- Activity `analyze_statistics` (function_app.py lines 202-235). -/
def analyze_statistics (storage : Storage) (payload : ActivityPayload) :
    Except PdfError StatisticsResult :=
  let container := orDefault payload.container "pdfs"
  if optStrTruthy payload.blob_name then
    match downloadPdf storage container (payload.blob_name.getD "") with
    | none => .error .downloadError
    | some pdf =>
      let page_count := pdf.pages.length
      let full_text := joinNewline (pdf.pages.map (fun t => t.getD ""))
      let word_count := countWords full_text
      let avg : Rat := if page_count = 0 then 0 else (word_count : Rat) / (page_count : Rat)
      let wpm : Nat := 200
      let est : Rat := if wpm = 0 then 0 else (word_count : Rat) / (wpm : Rat)
      .ok ⟨page_count, word_count, avg, est⟩
  else
    .ok ⟨0, 0, 0, 0⟩

/-- Python string comparison on character lists: code-point lexicographic
order. -/
def charListLe : List Char → List Char → Bool
  | [], _ => true
  | _ :: _, [] => false
  | a :: as, b :: bs =>
    if a < b then true else if b < a then false else charListLe as bs

/-- Python `a <= b` on strings: code-point lexicographic comparison. -/
def strLeB (a b : String) : Bool := charListLe a.data b.data

/-- Python `sorted(set(l))` for strings: the distinct elements in ascending
lexicographic order. -/
def sortedUnique (l : List String) : List String :=
  List.insertionSort (fun a b => strLeB a b = true) l.eraseDups

/-- Activity `detect_sensitive_data` (function_app.py lines 241-266). -/
def detect_sensitive_data (storage : Storage) (m : Matchers) (payload : ActivityPayload) :
    Except PdfError SensitiveDataResult :=
  let container := orDefault payload.container "pdfs"
  if optStrTruthy payload.blob_name then
    match downloadPdf storage container (payload.blob_name.getD "") with
    | none => .error .downloadError
    | some pdf =>
      let text := joinNewline (pdf.pages.map (fun t => t.getD ""))
      .ok ⟨sortedUnique (m.emails text), sortedUnique (m.phones text),
           sortedUnique (m.urls text), sortedUnique (m.dates text)⟩
  else
    .ok ⟨[], [], [], []⟩

/-- Input payload of `generate_report`: the identity plus the four fanned-in
analyzer results.  `none` models a missing or null component (the situation
the defensive `or` defaults guard against). -/
structure ReportPayload where
  container : Option String
  blob_name : Option String
  extract_text : Option ExtractionResult
  extract_metadata : Option (List (String × String))
  analyze_statistics : Option StatisticsResult
  detect_sensitive_data : Option SensitiveDataResult
deriving DecidableEq, Repr

/-- The assembled Report.  `extract_metadata` is the loose metadata dict
(the code can leave it as the empty dict); `analyze_statistics` is `none`
when the code substituted the literal empty JSON object for a missing
statistics component. -/
structure Report where
  container : String
  blob_name : String
  generated_at_utc : String
  extract_text : ExtractionResult
  extract_metadata : List (String × String)
  analyze_statistics : Option StatisticsResult
  detect_sensitive_data : SensitiveDataResult
deriving DecidableEq, Repr

/-- Activity `generate_report` (function_app.py lines 272-282); `now` is the
`datetime.now(timezone.utc)` timestamp string, passed in as the clock
boundary.  The `or` defaults: a present `extract_text` or
`detect_sensitive_data` dict is never falsy (it always has keys), so the
substitution fires exactly on `none`; a missing `extract_metadata` becomes
the empty dict (and an empty dict stays empty); a missing
`analyze_statistics` becomes the literal empty dict, rendered `none`. -/
def generate_report (now : String) (payload : ReportPayload) : Report :=
  { container := payload.container.getD "pdfs"
    blob_name := payload.blob_name.getD ""
    generated_at_utc := now
    extract_text := payload.extract_text.getD ⟨[], ""⟩
    extract_metadata := payload.extract_metadata.getD []
    analyze_statistics := payload.analyze_statistics
    detect_sensitive_data := payload.detect_sensitive_data.getD ⟨[], [], [], []⟩ }

/-- A stored table entity; every write carries all four attributes.  The
`report` attribute holds the serialized Report, modelled as the value
itself (`json.dumps` and the HTTP body are inverse at this boundary). -/
structure Entity where
  partitionKey : String
  rowKey : String
  generated_at_utc : String
  report : Report
deriving DecidableEq, Repr

/-- Key predicate used by upsert and point lookup. -/
def keyMatch (pk rk : String) (x : Entity) : Bool :=
  x.partitionKey == pk && x.rowKey == rk

/-- Table `upsert_entity(mode="merge")`: since every write carries all four
attributes, merging coincides with replacing the entity under the same key
(insert when absent). -/
def upsertMerge (table : List Entity) (e : Entity) : List Entity :=
  if table.any (keyMatch e.partitionKey e.rowKey) then
    table.map (fun x => if keyMatch e.partitionKey e.rowKey x then e else x)
  else
    table ++ [e]

/-- Acknowledgement returned by `store_report`. -/
structure StoreAck where
  partition_key : String
  row_key : String
  table_name : String
deriving DecidableEq, Repr

/-- Activity `store_report` (function_app.py lines 288-306): raises
`ValueError` on a falsy `blob_name`, otherwise upserts the entity keyed by
`(container, blob_name)`.  The table name defaults to `PdfReports`. -/
def store_report (now : String) (payload : Report) (table : List Entity) :
    Except PdfError (List Entity × StoreAck) :=
  let container := payload.container
  if payload.blob_name = "" then
    .error (.valueError "store_report requires blob_name in payload")
  else
    let g := if payload.generated_at_utc = "" then now else payload.generated_at_utc
    let e : Entity := ⟨container, payload.blob_name, g, payload⟩
    .ok (upsertMerge table e, ⟨container, payload.blob_name, "PdfReports"⟩)

/-- Table `get_entity(partition_key, row_key)`: first entity with both keys
equal, `none` when absent (the SDK raises, caught as the 404 path). -/
def getEntity (table : List Entity) (pk rk : String) : Option Entity :=
  table.find? (keyMatch pk rk)

/-- One element of the list response. -/
structure ListItem where
  container : String
  blob_name : String
  generated_at_utc : String
deriving DecidableEq, Repr

/-- Digits of a decimal literal, `none` when empty or non-digit. -/
def digitsToNat (cs : List Char) : Option Nat :=
  if cs = [] then none
  else if cs.all (fun c => c.isDigit) then
    some (cs.foldl (fun n c => n * 10 + (c.toNat - 48)) 0)
  else none

/-- Surrounding-whitespace strip on character lists (the relevant fragment
of Python `int`-argument stripping). -/
def trimChars (cs : List Char) : List Char :=
  ((cs.dropWhile (fun c => c.isWhitespace)).reverse.dropWhile
    (fun c => c.isWhitespace)).reverse

/-- Model of Python `int(s)` on the decimal inputs relevant here: optional
surrounding whitespace, optional sign, then digits; everything else raises
`ValueError` (`none`). -/
def parsePyInt (s : String) : Option Int :=
  match trimChars s.data with
  | '+' :: rest => (digitsToNat rest).map Int.ofNat
  | '-' :: rest => (digitsToNat rest).map (fun n => -(n : Int))
  | cs => (digitsToNat cs).map Int.ofNat

/-- Clamp `top = max(1, min(top, 200))`; the result is positive so it is a
natural number. -/
def clampTop (t : Int) : Nat := (max 1 (min t 200)).toNat

/-- The list branch of the `reports` HTTP handler (function_app.py lines
340-371): filter the partition, take the first `top` entities in
enumeration order, project, then stable-sort by `generated_at_utc`
descending (`items.sort(key=..., reverse=True)` after the truncating
loop). -/
def listReports (table : List Entity) (container : String) (top : Nat) : List ListItem :=
  let filtered := table.filter (fun e => e.partitionKey == container)
  let items := (filtered.take top).map (fun e => ⟨e.partitionKey, e.rowKey, e.generated_at_utc⟩)
  List.insertionSort
    (fun a b : ListItem => strLeB b.generated_at_utc a.generated_at_utc = true) items

/-- Responses of the `reports` HTTP route. -/
inductive ReportsResponse where
  | badRequest (body : String)
  | okReport (r : Report)
  | notFound
  | okList (items : List ListItem)
deriving DecidableEq, Repr

/-- HTTP route `reports/{container}/{blob_name?}` (function_app.py lines
314-371): 400 without a container, point lookup when a blob name is
present, otherwise the truncate-then-sort listing with the parsed and
clamped `top` parameter. -/
def reports (table : List Entity) (container blob_name : Option String)
    (topParam : Option String) : ReportsResponse :=
  if optStrTruthy container then
    let c := container.getD ""
    if optStrTruthy blob_name then
      match getEntity table c (blob_name.getD "") with
      | some e => .okReport e.report
      | none => .notFound
    else
      let top0 : Int := (parsePyInt (topParam.getD "50")).getD 50
      .okList (listReports table c (clampTop top0))
  else
    .badRequest "Missing container in route."

/-- Terminal outcome of one orchestration run. -/
inductive OrchResult where
  | missingBlobName
  | failed (e : PdfError)
  | completed (r : Report)
deriving DecidableEq, Repr

/-- Whether an orchestration outcome is a fan-in or store failure. -/
def OrchResult.isFailed : OrchResult → Bool
  | .failed _ => true
  | _ => false

/-- Observable trace of one orchestration run: which analyzer activities
were dispatched, whether `generate_report` was invoked, the report passed
to `store_report` (if any), and the terminal outcome. -/
structure OrchTrace where
  dispatched : List String
  generateCalled : Bool
  storedReport : Option Report
  result : OrchResult
deriving DecidableEq, Repr

/-- Orchestrator `PdfOrchestrator` (function_app.py lines 112-146): guard on
a falsy `blob_name`, fan out the four analyzers, join, chain
`generate_report` then `store_report`.  Returns the run trace and the
resulting table state. -/
def PdfOrchestrator (storage : Storage) (m : Matchers) (now : String)
    (table : List Entity) (input : Option ActivityPayload) : OrchTrace × List Entity :=
  let payload := input.getD ⟨none, none⟩
  let container := orDefault payload.container "pdfs"
  if optStrTruthy payload.blob_name then
    let base : ActivityPayload := ⟨some container, payload.blob_name⟩
    let dispatched := ["extract_text", "extract_metadata", "analyze_statistics",
                       "detect_sensitive_data"]
    match extract_text storage base, extract_metadata storage base,
          analyze_statistics storage base, detect_sensitive_data storage m base with
    | .ok tr, .ok mr, .ok sr, .ok dr =>
      let report := generate_report now
        ⟨some container, payload.blob_name, some tr, some mr, some sr, some dr⟩
      (match store_report now report table with
       | .ok (table2, _) => (⟨dispatched, true, some report, .completed report⟩, table2)
       | .error e => (⟨dispatched, true, none, .failed e⟩, table))
    | .error e, _, _, _ => (⟨dispatched, false, none, .failed e⟩, table)
    | _, .error e, _, _ => (⟨dispatched, false, none, .failed e⟩, table)
    | _, _, .error e, _ => (⟨dispatched, false, none, .failed e⟩, table)
    | _, _, _, .error e => (⟨dispatched, false, none, .failed e⟩, table)
  else
    (⟨[], false, none, .missingBlobName⟩, table)

/-- Trivial matchers, used to instantiate the re-library boundary in
concrete runs. -/
def noMatchers : Matchers := ⟨fun _ => [], fun _ => [], fun _ => [], fun _ => []⟩

theorem optStrTruthy_some_of_ne {n : String} (h : n ≠ "") :
    optStrTruthy (some n) = true := by
  simp [optStrTruthy, h]

/-- Claim C7: every StatisticsResult produced by analyze_statistics has
avg_words_per_page equal to word_count / page_count when page_count is
positive and 0 when page_count is zero, and
estimated_reading_time_minutes equal to word_count / 200; in particular a
zero-page document yields 0 for both derived fields. -/
theorem analyze_statistics_invariants (storage : Storage) (p : ActivityPayload)
    (r : StatisticsResult) (h : analyze_statistics storage p = Except.ok r) :
    (0 < r.page_count →
      r.avg_words_per_page = (r.word_count : Rat) / (r.page_count : Rat)) ∧
    r.estimated_reading_time_minutes = (r.word_count : Rat) / 200 ∧
    (r.page_count = 0 →
      r.avg_words_per_page = 0 ∧ r.estimated_reading_time_minutes = 0) := by
  unfold analyze_statistics at h
  by_cases hb : optStrTruthy p.blob_name
  · rw [if_pos hb] at h
    cases hd : downloadPdf storage (orDefault p.container "pdfs") (p.blob_name.getD "") with
    | none => rw [hd] at h; cases h
    | some pdf =>
      rw [hd] at h
      injection h with h2
      subst h2
      refine ⟨?_, ?_, ?_⟩
      · intro hpos
        have hne : pdf.pages.length ≠ 0 := by
          intro h0
          simp only [h0] at hpos
          exact Nat.lt_irrefl 0 hpos
        simp [hne]
      · simp
      · intro h0
        have hnil : pdf.pages = [] := List.length_eq_zero.mp h0
        simp [h0, hnil, joinNewline, countWords, countRuns]
  · rw [if_neg hb] at h
    injection h with h2
    subst h2
    refine ⟨?_, by simp, fun _ => ⟨rfl, rfl⟩⟩
    intro hpos
    exact absurd hpos (by simp)

/-- Claim C7 witness: a run over an absent identity produces the all-zero
record, which satisfies the invariants. -/
theorem analyze_statistics_invariants_witness :
    (0 < (⟨0, 0, 0, 0⟩ : StatisticsResult).page_count →
      (⟨0, 0, 0, 0⟩ : StatisticsResult).avg_words_per_page =
        (((⟨0, 0, 0, 0⟩ : StatisticsResult).word_count : Rat) /
          ((⟨0, 0, 0, 0⟩ : StatisticsResult).page_count : Rat))) ∧
    (⟨0, 0, 0, 0⟩ : StatisticsResult).estimated_reading_time_minutes =
      (((⟨0, 0, 0, 0⟩ : StatisticsResult).word_count : Rat) / 200) ∧
    ((⟨0, 0, 0, 0⟩ : StatisticsResult).page_count = 0 →
      (⟨0, 0, 0, 0⟩ : StatisticsResult).avg_words_per_page = 0 ∧
      (⟨0, 0, 0, 0⟩ : StatisticsResult).estimated_reading_time_minutes = 0) :=
  analyze_statistics_invariants ([] : Storage) ⟨none, none⟩ ⟨0, 0, 0, 0⟩ rfl

/-- Claim C4: a trigger input whose blob_name is missing, null or empty
makes the orchestrator return the MissingIdentity error immediately: no
analyzer is dispatched, generate_report is not invoked, nothing is stored,
and the table is unchanged. -/
theorem orchestrator_missing_blob_name (storage : Storage) (m : Matchers) (now : String)
    (table : List Entity) (input : Option ActivityPayload)
    (h : input = none ∨
      ∃ p, input = some p ∧ (p.blob_name = none ∨ p.blob_name = some "")) :
    PdfOrchestrator storage m now table input =
      (⟨[], false, none, OrchResult.missingBlobName⟩, table) := by
  rcases h with h | ⟨p, hp, hb⟩
  · subst h; rfl
  · subst hp
    obtain ⟨pc, pb⟩ := p
    rcases hb with hb | hb <;> simp only at hb <;> subst hb <;>
      simp [PdfOrchestrator, optStrTruthy]

/-- Claim C4 witness: a concrete trigger input with an empty blob_name. -/
theorem orchestrator_missing_blob_name_witness :
    PdfOrchestrator ([] : Storage) noMatchers "t" [] (some ⟨some "c", some ""⟩) =
      (⟨[], false, none, OrchResult.missingBlobName⟩, []) :=
  orchestrator_missing_blob_name ([] : Storage) noMatchers "t" []
    (some ⟨some "c", some ""⟩) (Or.inr ⟨⟨some "c", some ""⟩, rfl, Or.inr rfl⟩)

/-- Claim C1 counterexample: with an empty blob store and the identity
pdfs/missing.pdf (a present name whose source bytes are unavailable), every
analyzer propagates the download failure instead of returning its canonical
empty result. -/
theorem analyzers_missing_document_counterexample :
    extract_text ([] : Storage) ⟨some "pdfs", some "missing.pdf"⟩ =
      Except.error PdfError.downloadError ∧
    extract_metadata ([] : Storage) ⟨some "pdfs", some "missing.pdf"⟩ =
      Except.error PdfError.downloadError ∧
    analyze_statistics ([] : Storage) ⟨some "pdfs", some "missing.pdf"⟩ =
      Except.error PdfError.downloadError ∧
    detect_sensitive_data ([] : Storage) noMatchers ⟨some "pdfs", some "missing.pdf"⟩ =
      Except.error PdfError.downloadError ∧
    (Except.error PdfError.downloadError ≠
      (Except.ok ⟨[], ""⟩ : Except PdfError ExtractionResult)) :=
  ⟨rfl, rfl, rfl, rfl, by simp⟩

/-- Claim C1 amended: each analyzer returns its empty-shaped result exactly
when blob_name is missing, null or empty (for extract_metadata that result
is the empty mapping); when blob_name is non-empty but the document is
absent from storage, the download failure propagates and the activity
fails. -/
theorem analyzers_document_absence_behavior (storage : Storage) (m : Matchers)
    (c b : Option String) (n : String) (hn : n ≠ "")
    (hb : b = none ∨ b = some "")
    (hd : downloadPdf storage (orDefault c "pdfs") n = none) :
    (extract_text storage ⟨c, b⟩ = Except.ok ⟨[], ""⟩ ∧
     extract_metadata storage ⟨c, b⟩ = Except.ok [] ∧
     analyze_statistics storage ⟨c, b⟩ = Except.ok ⟨0, 0, 0, 0⟩ ∧
     detect_sensitive_data storage m ⟨c, b⟩ = Except.ok ⟨[], [], [], []⟩) ∧
    (extract_text storage ⟨c, some n⟩ = Except.error PdfError.downloadError ∧
     extract_metadata storage ⟨c, some n⟩ = Except.error PdfError.downloadError ∧
     analyze_statistics storage ⟨c, some n⟩ = Except.error PdfError.downloadError ∧
     detect_sensitive_data storage m ⟨c, some n⟩ = Except.error PdfError.downloadError) := by
  have ht : optStrTruthy (some n) = true := optStrTruthy_some_of_ne hn
  constructor
  · rcases hb with hb | hb <;> subst hb <;>
      exact ⟨rfl, rfl, rfl, rfl⟩
  · refine ⟨?_, ?_, ?_, ?_⟩ <;>
      simp [extract_text, extract_metadata, analyze_statistics,
        detect_sensitive_data, ht, hd]

/-- Claim C1 amended witness: concrete instantiation with an empty store, a
custom container and the name missing.pdf. -/
theorem analyzers_document_absence_behavior_witness :
    (extract_text ([] : Storage) ⟨some "k", none⟩ = Except.ok ⟨[], ""⟩ ∧
     extract_metadata ([] : Storage) ⟨some "k", none⟩ = Except.ok [] ∧
     analyze_statistics ([] : Storage) ⟨some "k", none⟩ = Except.ok ⟨0, 0, 0, 0⟩ ∧
     detect_sensitive_data ([] : Storage) noMatchers ⟨some "k", none⟩ =
       Except.ok ⟨[], [], [], []⟩) ∧
    (extract_text ([] : Storage) ⟨some "k", some "missing.pdf"⟩ =
       Except.error PdfError.downloadError ∧
     extract_metadata ([] : Storage) ⟨some "k", some "missing.pdf"⟩ =
       Except.error PdfError.downloadError ∧
     analyze_statistics ([] : Storage) ⟨some "k", some "missing.pdf"⟩ =
       Except.error PdfError.downloadError ∧
     detect_sensitive_data ([] : Storage) noMatchers ⟨some "k", some "missing.pdf"⟩ =
       Except.error PdfError.downloadError) :=
  analyzers_document_absence_behavior ([] : Storage) noMatchers (some "k") none
    "missing.pdf" (by decide) (Or.inl rfl) rfl

/-- Modelled from the spec: the canonical empty MetadataResult, "the mapping
with all seven fields set to the empty string". -/
def specEmptyMetadata : List (String × String) :=
  [("title", ""), ("author", ""), ("subject", ""), ("creator", ""),
   ("producer", ""), ("creation_date", ""), ("mod_date", "")]

/-- Modelled from the spec: the canonical all-zero StatisticsResult. -/
def specZeroStatistics : StatisticsResult := ⟨0, 0, 0, 0⟩

/-- Claim C3 counterexample: with missing metadata and statistics
components, generate_report substitutes the empty mapping for both — not
the seven-empty-string mapping and not the all-zero statistics record. -/
theorem generate_report_defaults_counterexample :
    (generate_report "2024-01-01T00:00:00Z"
        ⟨some "c", some "n", none, none, none, none⟩).extract_metadata ≠
      specEmptyMetadata ∧
    (generate_report "2024-01-01T00:00:00Z"
        ⟨some "c", some "n", none, none, none, none⟩).analyze_statistics ≠
      some specZeroStatistics := by
  constructor
  · intro h
    simp [generate_report, specEmptyMetadata] at h
  · intro h
    simp [generate_report] at h

/-- Claim C3 amended: for a missing or null component, generate_report
substitutes the empty extraction record for extract_text, the empty mapping
for extract_metadata, the empty mapping (rendered none) for
analyze_statistics, and the four empty lists for detect_sensitive_data;
each assembled field equals the component passed through the Python `or`
default, so no field is ever null or absent. -/
theorem generate_report_defaults (now : String) (p : ReportPayload) :
    (p.extract_text = none → (generate_report now p).extract_text = ⟨[], ""⟩) ∧
    (p.extract_metadata = none → (generate_report now p).extract_metadata = []) ∧
    (generate_report now p).analyze_statistics = p.analyze_statistics ∧
    (p.detect_sensitive_data = none →
      (generate_report now p).detect_sensitive_data = ⟨[], [], [], []⟩) ∧
    (generate_report now p).extract_text = p.extract_text.getD ⟨[], ""⟩ ∧
    (generate_report now p).extract_metadata = p.extract_metadata.getD [] ∧
    (generate_report now p).detect_sensitive_data =
      p.detect_sensitive_data.getD ⟨[], [], [], []⟩ := by
  refine ⟨?_, ?_, rfl, ?_, rfl, rfl, rfl⟩ <;> intro h <;> simp [generate_report, h]

/-- Claim C3 amended witness: a payload with every component missing gets
the empty mapping as its metadata field. -/
theorem generate_report_defaults_witness :
    (generate_report "t" ⟨some "c", some "n", none, none, none, none⟩).extract_metadata =
      [] :=
  (generate_report_defaults "t" ⟨some "c", some "n", none, none, none, none⟩).2.1 rfl

theorem orDefault_idem (c : Option String) :
    orDefault (some (orDefault c "pdfs")) "pdfs" = orDefault c "pdfs" := by
  cases c with
  | none => rfl
  | some s => by_cases h : s = "" <;> simp [orDefault, h]

/-- Claim C10: a missing, null or empty container field is replaced by the
default container pdfs in the orchestrator and in all four analyzer
activities — each behaves exactly as on the identity with container
`orDefault c "pdfs"` — and a non-empty requested container is honored
exactly. -/
theorem container_defaulting (storage : Storage) (m : Matchers) (now : String)
    (table : List Entity) (c n : Option String) (s : String) (hs : s ≠ "") :
    orDefault none "pdfs" = "pdfs" ∧
    orDefault (some "") "pdfs" = "pdfs" ∧
    orDefault (some s) "pdfs" = s ∧
    extract_text storage ⟨c, n⟩ =
      extract_text storage ⟨some (orDefault c "pdfs"), n⟩ ∧
    extract_metadata storage ⟨c, n⟩ =
      extract_metadata storage ⟨some (orDefault c "pdfs"), n⟩ ∧
    analyze_statistics storage ⟨c, n⟩ =
      analyze_statistics storage ⟨some (orDefault c "pdfs"), n⟩ ∧
    detect_sensitive_data storage m ⟨c, n⟩ =
      detect_sensitive_data storage m ⟨some (orDefault c "pdfs"), n⟩ ∧
    PdfOrchestrator storage m now table (some ⟨c, n⟩) =
      PdfOrchestrator storage m now table (some ⟨some (orDefault c "pdfs"), n⟩) := by
  refine ⟨rfl, rfl, by simp [orDefault, hs], ?_, ?_, ?_, ?_, ?_⟩ <;>
    simp [extract_text, extract_metadata, analyze_statistics,
      detect_sensitive_data, PdfOrchestrator, orDefault_idem]

/-- Claim C10 witness: concrete instantiation over an empty store with a
null container and the non-empty container name k. -/
theorem container_defaulting_witness :
    orDefault none "pdfs" = "pdfs" ∧
    orDefault (some "") "pdfs" = "pdfs" ∧
    orDefault (some "k") "pdfs" = "k" ∧
    extract_text ([] : Storage) ⟨none, some "a"⟩ =
      extract_text ([] : Storage) ⟨some (orDefault none "pdfs"), some "a"⟩ ∧
    extract_metadata ([] : Storage) ⟨none, some "a"⟩ =
      extract_metadata ([] : Storage) ⟨some (orDefault none "pdfs"), some "a"⟩ ∧
    analyze_statistics ([] : Storage) ⟨none, some "a"⟩ =
      analyze_statistics ([] : Storage) ⟨some (orDefault none "pdfs"), some "a"⟩ ∧
    detect_sensitive_data ([] : Storage) noMatchers ⟨none, some "a"⟩ =
      detect_sensitive_data ([] : Storage) noMatchers
        ⟨some (orDefault none "pdfs"), some "a"⟩ ∧
    PdfOrchestrator ([] : Storage) noMatchers "t" [] (some ⟨none, some "a"⟩) =
      PdfOrchestrator ([] : Storage) noMatchers "t" []
        (some ⟨some (orDefault none "pdfs"), some "a"⟩) :=
  container_defaulting ([] : Storage) noMatchers "t" [] none (some "a") "k" (by decide)

/-- Claim C5: if any of the four analyzer activities fails, the fan-in join
fails the run as a whole: generate_report is not invoked, nothing is passed
to store_report, the outcome is Failed and the table is unchanged. -/
theorem fanin_atomicity (storage : Storage) (m : Matchers) (now : String)
    (table : List Entity) (pc : Option String) (n : String) (hn : n ≠ "")
    (hfail :
      (∃ e, extract_text storage ⟨some (orDefault pc "pdfs"), some n⟩ =
        Except.error e) ∨
      (∃ e, extract_metadata storage ⟨some (orDefault pc "pdfs"), some n⟩ =
        Except.error e) ∨
      (∃ e, analyze_statistics storage ⟨some (orDefault pc "pdfs"), some n⟩ =
        Except.error e) ∨
      (∃ e, detect_sensitive_data storage m ⟨some (orDefault pc "pdfs"), some n⟩ =
        Except.error e)) :
    (PdfOrchestrator storage m now table (some ⟨pc, some n⟩)).1.generateCalled = false ∧
    (PdfOrchestrator storage m now table (some ⟨pc, some n⟩)).1.storedReport = none ∧
    (PdfOrchestrator storage m now table (some ⟨pc, some n⟩)).1.result.isFailed = true ∧
    (PdfOrchestrator storage m now table (some ⟨pc, some n⟩)).2 = table := by
  have ht : optStrTruthy (some n) = true := optStrTruthy_some_of_ne hn
  cases h1 : extract_text storage ⟨some (orDefault pc "pdfs"), some n⟩ <;>
  cases h2 : extract_metadata storage ⟨some (orDefault pc "pdfs"), some n⟩ <;>
  cases h3 : analyze_statistics storage ⟨some (orDefault pc "pdfs"), some n⟩ <;>
  cases h4 : detect_sensitive_data storage m ⟨some (orDefault pc "pdfs"), some n⟩ <;>
    simp_all [PdfOrchestrator, OrchResult.isFailed]

/-- Claim C5 witness: over an empty blob store every analyzer fails on
download, and the orchestration run fails without building or storing a
report. -/
theorem fanin_atomicity_witness :
    (PdfOrchestrator ([] : Storage) noMatchers "t" []
      (some ⟨some "c", some "x.pdf"⟩)).1.generateCalled = false ∧
    (PdfOrchestrator ([] : Storage) noMatchers "t" []
      (some ⟨some "c", some "x.pdf"⟩)).1.storedReport = none ∧
    (PdfOrchestrator ([] : Storage) noMatchers "t" []
      (some ⟨some "c", some "x.pdf"⟩)).1.result.isFailed = true ∧
    (PdfOrchestrator ([] : Storage) noMatchers "t" []
      (some ⟨some "c", some "x.pdf"⟩)).2 = [] :=
  fanin_atomicity ([] : Storage) noMatchers "t" [] (some "c") "x.pdf" (by decide)
    (Or.inl ⟨PdfError.downloadError, rfl⟩)

theorem keyMatch_self (e : Entity) : keyMatch e.partitionKey e.rowKey e = true := by
  simp [keyMatch]

theorem find_map_replace (e : Entity) :
    ∀ table : List Entity, table.any (keyMatch e.partitionKey e.rowKey) = true →
      (table.map (fun x => if keyMatch e.partitionKey e.rowKey x then e else x)).find?
        (keyMatch e.partitionKey e.rowKey) = some e := by
  intro table
  induction table with
  | nil => intro h; simp at h
  | cons x xs ih =>
    intro h
    by_cases hx : keyMatch e.partitionKey e.rowKey x = true
    · simp [hx, List.find?_cons, keyMatch_self]
    · have hxs : xs.any (keyMatch e.partitionKey e.rowKey) = true := by
        rw [List.any_cons] at h
        rcases Bool.or_eq_true_iff.mp h with h1 | h1
        · exact absurd h1 hx
        · exact h1
      rw [List.map_cons, if_neg hx, List.find?_cons_of_neg _ hx]
      exact ih hxs

theorem find_append_new (e : Entity) :
    ∀ table : List Entity, table.any (keyMatch e.partitionKey e.rowKey) = false →
      (table ++ [e]).find? (keyMatch e.partitionKey e.rowKey) = some e := by
  intro table
  induction table with
  | nil => intro _; simp [List.find?_cons, keyMatch_self]
  | cons x xs ih =>
    intro h
    rw [List.any_cons, Bool.or_eq_false_iff] at h
    rw [List.cons_append, List.find?_cons_of_neg _ (by simp [h.1]), ih h.2]

theorem getEntity_upsertMerge (table : List Entity) (e : Entity) :
    getEntity (upsertMerge table e) e.partitionKey e.rowKey = some e := by
  unfold getEntity upsertMerge
  by_cases h : table.any (keyMatch e.partitionKey e.rowKey) = true
  · rw [if_pos h]
    exact find_map_replace e table h
  · rw [if_neg h]
    exact find_append_new e table (by simpa using h)

/-- Claim C9: storing a Report for identity (C, N) with C and N non-empty
and then querying GET /reports/C/N returns the very Report that was stored
(serialization and retrieval are inverse at this boundary). -/
theorem store_then_get_roundtrip (now : String) (r : Report)
    (table table2 : List Entity) (ack : StoreAck) (topParam : Option String)
    (hc : r.container ≠ "") (hn : r.blob_name ≠ "")
    (hstore : store_report now r table = Except.ok (table2, ack)) :
    reports table2 (some r.container) (some r.blob_name) topParam =
      ReportsResponse.okReport r := by
  unfold store_report at hstore
  rw [if_neg hn] at hstore
  injection hstore with hpair
  have htable : table2 =
      upsertMerge table
        ⟨r.container, r.blob_name,
          if r.generated_at_utc = "" then now else r.generated_at_utc, r⟩ := by
    have := congrArg Prod.fst hpair
    exact this.symm
  subst htable
  unfold reports
  rw [if_pos (optStrTruthy_some_of_ne hc)]
  rw [if_pos (optStrTruthy_some_of_ne hn)]
  simp only [Option.getD_some]
  rw [getEntity_upsertMerge table
    ⟨r.container, r.blob_name,
      if r.generated_at_utc = "" then now else r.generated_at_utc, r⟩]

/-- A concrete report used by the round-trip witness. -/
def sampleReport : Report :=
  ⟨"c", "n", "g", ⟨[], ""⟩, [], none, ⟨[], [], [], []⟩⟩

/-- Claim C9 witness: store sampleReport into the empty table, then the GET
route returns it. -/
theorem store_then_get_roundtrip_witness :
    reports [⟨"c", "n", "g", sampleReport⟩] (some sampleReport.container)
      (some sampleReport.blob_name) none = ReportsResponse.okReport sampleReport :=
  store_then_get_roundtrip "t" sampleReport [] [⟨"c", "n", "g", sampleReport⟩]
    ⟨"c", "n", "PdfReports"⟩ none (by decide) (by decide) rfl

/-- A minimal stored report used to populate table entities in concrete
runs. -/
def dummyReport (c n g : String) : Report :=
  ⟨c, n, g, ⟨[], ""⟩, [], none, ⟨[], [], [], []⟩⟩

/-- Three entities in one partition, in table enumeration (row-key) order,
with generated_at_utc values out of chronological order. -/
def c2Table : List Entity :=
  [⟨"c", "a", "2024-01-01Z", dummyReport "c" "a" "2024-01-01Z"⟩,
   ⟨"c", "b", "2024-03-01Z", dummyReport "c" "b" "2024-03-01Z"⟩,
   ⟨"c", "d", "2024-02-01Z", dummyReport "c" "d" "2024-02-01Z"⟩]


/-- Claim C2 counterexample: with the three stored reports dated
2024-01-01Z, 2024-03-01Z, 2024-02-01Z (in enumeration order) and top=2 the
list route returns 2024-03-01Z then 2024-01-01Z — the loop truncates to the
first two entities before sorting — not the two greatest values
2024-03-01Z, 2024-02-01Z the claim requires. -/
theorem list_top_counterexample :
    reports c2Table (some "c") none (some "2") =
      ReportsResponse.okList
        [⟨"c", "b", "2024-03-01Z"⟩, ⟨"c", "a", "2024-01-01Z"⟩] ∧
    reports c2Table (some "c") none (some "2") ≠
      ReportsResponse.okList
        [⟨"c", "b", "2024-03-01Z"⟩, ⟨"c", "d", "2024-02-01Z"⟩] := by
  constructor
  · decide
  · decide

theorem charListLe_total : ∀ as bs : List Char,
    charListLe as bs = true ∨ charListLe bs as = true := by
  intro as
  induction as with
  | nil => intro bs; left; rfl
  | cons a as ih =>
    intro bs
    cases bs with
    | nil => right; rfl
    | cons b bs =>
      rcases lt_trichotomy a b with h | h | h
      · left; simp [charListLe, h]
      · subst h
        rcases ih bs with h2 | h2
        · left; simp [charListLe, lt_irrefl, h2]
        · right; simp [charListLe, lt_irrefl, h2]
      · right; simp [charListLe, h]

theorem charListLe_trans : ∀ as bs cs : List Char,
    charListLe as bs = true → charListLe bs cs = true → charListLe as cs = true := by
  intro as
  induction as with
  | nil => intro bs cs _ _; rfl
  | cons a as ih =>
    intro bs cs h1 h2
    cases bs with
    | nil => simp [charListLe] at h1
    | cons b bs =>
      cases cs with
      | nil => simp [charListLe] at h2
      | cons c cs =>
        simp only [charListLe] at h1 h2 ⊢
        by_cases hab : a < b
        · by_cases hbc : b < c
          · simp [lt_trans hab hbc]
          · by_cases hcb : c < b
            · simp [hbc, hcb] at h2
            · have : b = c := le_antisymm (not_lt.mp hcb) (not_lt.mp hbc)
              subst this
              simp [hab]
        · by_cases hba : b < a
          · simp [hab, hba] at h1
          · have : a = b := le_antisymm (not_lt.mp hba) (not_lt.mp hab)
            subst this
            by_cases hbc : a < c
            · simp [hbc]
            · by_cases hcb : c < a
              · simp [hbc, hcb] at h2
              · have : a = c := le_antisymm (not_lt.mp hcb) (not_lt.mp hbc)
                subst this
                simp [lt_irrefl] at h1 h2 ⊢
                exact ih bs cs h1 h2

theorem strLeB_total (a b : String) : strLeB a b = true ∨ strLeB b a = true :=
  charListLe_total a.data b.data

theorem strLeB_trans {a b c : String} (h1 : strLeB a b = true)
    (h2 : strLeB b c = true) : strLeB a c = true :=
  charListLe_trans a.data b.data c.data h1 h2

/-- Claim C2 amended: the list operation takes the first top matching
entities in storage enumeration order and returns exactly those (as a
permutation), stably sorted by generated_at_utc descending under
string-lexicographic comparison; it does not select the top greatest
values over the whole partition. -/
theorem listReports_sorted_perm (table : List Entity) (c : String) (top : Nat) :
    List.Sorted
      (fun a b : ListItem => strLeB b.generated_at_utc a.generated_at_utc = true)
      (listReports table c top) ∧
    List.Perm (listReports table c top)
      (((table.filter (fun e => e.partitionKey == c)).take top).map
        (fun e => ⟨e.partitionKey, e.rowKey, e.generated_at_utc⟩)) := by
  constructor
  · haveI ht : IsTotal ListItem
        (fun a b => strLeB b.generated_at_utc a.generated_at_utc = true) :=
      ⟨fun a b => (strLeB_total b.generated_at_utc a.generated_at_utc)⟩
    haveI htr : IsTrans ListItem
        (fun a b => strLeB b.generated_at_utc a.generated_at_utc = true) :=
      ⟨fun _ _ _ hab hbc => strLeB_trans hbc hab⟩
    exact List.sorted_insertionSort _ _
  · exact List.perm_insertionSort _ _

/-- Modelled from the spec: one pages entry per physical page, in page
order, with 1-based page numbers and the page text (empty string when the
page has none). -/
def specPages (ts : List (Option String)) : List PageText :=
  (List.range ts.length).map (fun j => ⟨j + 1, (ts.getD j none).getD ""⟩)

theorem extractPages_cons (i : Nat) (t : Option String) (rest : List (Option String)) :
    extractPages i (t :: rest) =
      (⟨i, t.getD ""⟩ :: (extractPages (i + 1) rest).1,
       if t.getD "" = "" then (extractPages (i + 1) rest).2
       else t.getD "" :: (extractPages (i + 1) rest).2) := by
  simp [extractPages]

theorem extractPages_fst :
    ∀ (ts : List (Option String)) (i : Nat),
      (extractPages i ts).1 =
        (List.range ts.length).map (fun j => ⟨i + j, (ts.getD j none).getD ""⟩) := by
  intro ts
  induction ts with
  | nil => intro i; simp [extractPages]
  | cons t rest ih =>
    intro i
    rw [extractPages_cons]
    show (⟨i, t.getD ""⟩ : PageText) :: (extractPages (i + 1) rest).1 = _
    rw [ih (i + 1), List.length_cons, List.range_succ_eq_map, List.map_cons,
      List.map_map]
    congr 1
    simp
    intro a _
    omega

theorem extractPages_one (ts : List (Option String)) :
    (extractPages 1 ts).1 = specPages ts := by
  rw [extractPages_fst]
  unfold specPages
  apply List.map_congr_left
  intro j _
  congr 1
  omega

theorem extractPages_snd :
    ∀ (ts : List (Option String)) (i : Nat),
      (extractPages i ts).2 =
        (ts.map (fun t => t.getD "")).filter (fun s => !(s == "")) := by
  intro ts
  induction ts with
  | nil => intro i; simp [extractPages]
  | cons t rest ih =>
    intro i
    rw [extractPages_cons]
    show (if t.getD "" = "" then (extractPages (i + 1) rest).2
      else t.getD "" :: (extractPages (i + 1) rest).2) = _
    by_cases h : t.getD "" = "" <;>
      simp [h, ih (i + 1), List.filter_cons]

/-- Claim C6: for a stored document, extract_text returns one pages entry
per physical page in page order with 1-based page numbers (empty-text pages
included), and full_text is the non-empty page texts joined with newline
separators in page order (empty-text pages contribute nothing). -/
theorem extract_text_shape (storage : Storage) (c : Option String) (n : String)
    (pdf : PdfDocument) (r : ExtractionResult) (hn : n ≠ "")
    (hd : downloadPdf storage (orDefault c "pdfs") n = some pdf)
    (h : extract_text storage ⟨c, some n⟩ = Except.ok r) :
    r.pages = specPages pdf.pages ∧
    r.full_text =
      joinNewline ((pdf.pages.map (fun t => t.getD "")).filter (fun s => !(s == ""))) := by
  have ht : optStrTruthy (some n) = true := optStrTruthy_some_of_ne hn
  unfold extract_text at h
  rw [ht] at h
  simp only [if_true, Option.getD_some, hd] at h
  injection h with h2
  subst h2
  exact ⟨extractPages_one pdf.pages, by rw [extractPages_snd pdf.pages 1]⟩

/-- Document used by the C6 witness: three pages, the middle one empty. -/
def c6Pdf : PdfDocument :=
  ⟨[some "a", some "", some "b"], none, none, none, none, none, none, none⟩

/-- Storage holding the C6 witness document under pdfs/w.pdf. -/
def c6Storage : Storage := [(("pdfs", "w.pdf"), c6Pdf)]

/-- Claim C6 witness: the three-page document with an empty middle page. -/
theorem extract_text_shape_witness :
    (⟨[⟨1, "a"⟩, ⟨2, ""⟩, ⟨3, "b"⟩], "a\nb"⟩ : ExtractionResult).pages =
      specPages c6Pdf.pages ∧
    (⟨[⟨1, "a"⟩, ⟨2, ""⟩, ⟨3, "b"⟩], "a\nb"⟩ : ExtractionResult).full_text =
      joinNewline ((c6Pdf.pages.map (fun t => t.getD "")).filter
        (fun s => !(s == ""))) :=
  extract_text_shape c6Storage none "w.pdf" c6Pdf
    ⟨[⟨1, "a"⟩, ⟨2, ""⟩, ⟨3, "b"⟩], "a\nb"⟩ (by decide) rfl rfl

theorem isWordChar_newline : isWordChar '\n' = false := by decide

theorem countRuns_append_newline (xs : List Char) :
    ∀ (b : Bool) (ys : List Char),
      countRuns (xs ++ '\n' :: ys) b = countRuns xs b + countRuns ys false := by
  induction xs with
  | nil =>
    intro b ys
    simp [countRuns, isWordChar_newline]
  | cons c rest ih =>
    intro b ys
    simp [countRuns, ih, Nat.add_assoc]

theorem countWords_append_newline (s t : String) :
    countWords (s ++ "\n" ++ t) = countWords s + countWords t := by
  unfold countWords
  have hnl : ("\n" : String).data = ['\n'] := rfl
  have h : (s ++ "\n" ++ t).data = s.data ++ '\n' :: t.data := by
    simp [String.data_append, hnl]
  rw [h, countRuns_append_newline]

theorem countWords_joinNewline :
    ∀ parts : List String, countWords (joinNewline parts) = (parts.map countWords).sum
  | [] => by simp [joinNewline, countWords, countRuns]
  | [s] => by simp [joinNewline]
  | s :: s2 :: rest => by
    have ih := countWords_joinNewline (s2 :: rest)
    have hj : joinNewline (s :: s2 :: rest) = s ++ "\n" ++ joinNewline (s2 :: rest) :=
      rfl
    rw [hj, countWords_append_newline, ih]
    simp

/-- The word count that analyze_statistics actually produces for a stored
document: the total over the newline-joined page texts. -/
theorem analyze_word_count_eq_sum (storage : Storage) (p : ActivityPayload)
    (r : StatisticsResult) (pdf : PdfDocument) (n : String)
    (hb : p.blob_name = some n) (hn : n ≠ "")
    (hd : downloadPdf storage (orDefault p.container "pdfs") n = some pdf)
    (h : analyze_statistics storage p = Except.ok r) :
    r.word_count = (pdf.pages.map (fun t => countWords (t.getD ""))).sum := by
  have ht : optStrTruthy p.blob_name = true := by
    rw [hb]; exact optStrTruthy_some_of_ne hn
  unfold analyze_statistics at h
  rw [ht] at h
  rw [hb] at h
  simp only [if_true, Option.getD_some, hd] at h
  injection h with h2
  subst h2
  show countWords (joinNewline (pdf.pages.map (fun t => t.getD ""))) = _
  rw [countWords_joinNewline, List.map_map]
  rfl

/-- Modelled from the spec: the number of maximal alphanumeric/underscore
runs in the plain concatenation of all page texts. -/
def specConcatWordCount (pdf : PdfDocument) : Nat :=
  countWords (String.join (pdf.pages.map (fun t => t.getD "")))

/-- Two-page document whose pages end and begin with word characters. -/
def c8Pdf : PdfDocument :=
  ⟨[some "ab", some "cd"], none, none, none, none, none, none, none⟩

/-- Storage holding the C8 counterexample document under pdfs/d.pdf. -/
def c8Storage : Storage := [(("pdfs", "d.pdf"), c8Pdf)]

/-- Claim C8 counterexample: for the two pages ab and cd the code counts 2
words (the pages are joined with a newline before tokenizing), while the
concatenation abcd has a single maximal run; so word_count is not the run
count of the concatenation, and it is not independent of how page texts
are separated when joined. -/
theorem word_count_concat_counterexample :
    (analyze_statistics c8Storage ⟨some "pdfs", some "d.pdf"⟩).map
        (fun r => r.word_count) = Except.ok 2 ∧
    specConcatWordCount c8Pdf = 1 ∧
    (2 : Nat) ≠ 1 :=
  ⟨rfl, rfl, by decide⟩

/-- Claim C8 amended: word_count equals the number of maximal
alphanumeric/underscore runs in the pages' texts joined with newline
separators, which is the sum of the per-page run counts; it is therefore
independent of the order of the pages (any permutation of the page list
yields the same word_count), though not of the separator used when
joining. -/
theorem word_count_sum_and_order_independent
    (storage storage2 : Storage) (p p2 : ActivityPayload)
    (r r2 : StatisticsResult) (pdf pdf2 : PdfDocument) (n n2 : String)
    (hb : p.blob_name = some n) (hn : n ≠ "")
    (hd : downloadPdf storage (orDefault p.container "pdfs") n = some pdf)
    (h : analyze_statistics storage p = Except.ok r)
    (hb2 : p2.blob_name = some n2) (hn2 : n2 ≠ "")
    (hd2 : downloadPdf storage2 (orDefault p2.container "pdfs") n2 = some pdf2)
    (h2 : analyze_statistics storage2 p2 = Except.ok r2)
    (hperm : List.Perm pdf.pages pdf2.pages) :
    r.word_count = (pdf.pages.map (fun t => countWords (t.getD ""))).sum ∧
    r.word_count = r2.word_count := by
  have e1 := analyze_word_count_eq_sum storage p r pdf n hb hn hd h
  have e2 := analyze_word_count_eq_sum storage2 p2 r2 pdf2 n2 hb2 hn2 hd2 h2
  refine ⟨e1, ?_⟩
  rw [e1, e2]
  exact (hperm.map (fun t => countWords (t.getD ""))).sum_eq

/-- Documents used by the C8 amended witness: the same pages in swapped
order. -/
def c8PdfA : PdfDocument :=
  ⟨[some "x y", some "z"], none, none, none, none, none, none, none⟩

/-- Swapped-page variant of c8PdfA. -/
def c8PdfB : PdfDocument :=
  ⟨[some "z", some "x y"], none, none, none, none, none, none, none⟩

/-- Storage for the C8 amended witness, holding both page orders. -/
def c8Storage2 : Storage := [(("pdfs", "pa.pdf"), c8PdfA), (("pdfs", "pb.pdf"), c8PdfB)]

/-- Claim C8 amended witness: both page orders give word_count 3. -/
theorem word_count_sum_and_order_independent_witness :
    (3 : Nat) = (c8PdfA.pages.map (fun t => countWords (t.getD ""))).sum ∧
    (3 : Nat) = (3 : Nat) :=
  word_count_sum_and_order_independent c8Storage2 c8Storage2
    ⟨some "pdfs", some "pa.pdf"⟩ ⟨some "pdfs", some "pb.pdf"⟩
    ⟨2, 3, (3 : Rat) / 2, (3 : Rat) / 200⟩ ⟨2, 3, (3 : Rat) / 2, (3 : Rat) / 200⟩
    c8PdfA c8PdfB "pa.pdf" "pb.pdf" rfl (by decide) rfl rfl rfl (by decide) rfl rfl
    (by decide)
